import Mathlib

/-!
Verification of the `subscriptions` billing core of the stylo.pe backend
(`backend/apps/subscriptions`): trial tracking, monthly invoice generation
with per-staff proration, payment processing and the suspension sweeps.

Conventions of the embedding:
* Python `datetime.date` values are modelled by `CalDate` (year, month, day).
  Ordering and subtraction of dates go through `CalDate.toOrdinal`, the exact
  analogue of Python's `date.toordinal` (so `(d2 - d1).days` is
  `(d2.toOrdinal : Int) - d1.toOrdinal`).
* `Decimal` amounts are modelled by `ℚ`; `Decimal.quantize(..., ROUND_HALF_UP)`
  is `roundHalfUp s x` (round half away from zero at scale `s`).
* Django querysets become explicit lists of rows; each service function is a
  pure function from the relevant table rows to updated rows / results.
-/

namespace Stylo

/-- Python `datetime.date`: a calendar date. -/
structure CalDate where
  year : Nat
  month : Nat
  day : Nat
  deriving Repr, DecidableEq

/-- `calendar.isleap` / the Gregorian leap-year rule used by
`calendar.monthrange`. -/
def isLeap (y : Nat) : Bool :=
  (y % 4 == 0 && y % 100 != 0) || (y % 400 == 0)

/-- Second component of `calendar.monthrange(y, m)`: number of days in the
month. -/
def daysInMonth (y m : Nat) : Nat :=
  if m = 2 then (if isLeap y then 29 else 28)
  else if m = 4 ∨ m = 6 ∨ m = 9 ∨ m = 11 then 30
  else 31

/-- Days in the months of year `y` strictly before month `m`
(`daysBeforeMonth y 1 = 0`). -/
def daysBeforeMonth (y : Nat) : Nat → Nat
  | 0 => 0
  | 1 => 0
  | m + 2 => daysBeforeMonth y (m + 1) + daysInMonth y (m + 1)

/-- Days in the years strictly before year `y` (Python
`datetime._days_before_year`). -/
def daysBeforeYear (y : Nat) : Nat :=
  365 * (y - 1) + (y - 1) / 4 - (y - 1) / 100 + (y - 1) / 400

/-- Python `date.toordinal`: proleptic Gregorian ordinal of the date. -/
def CalDate.toOrdinal (d : CalDate) : Nat :=
  daysBeforeYear d.year + daysBeforeMonth d.year d.month + d.day

/-- Date comparison (Python dates compare chronologically; on valid dates
this is the ordinal order). -/
def CalDate.le (a b : CalDate) : Prop := a.toOrdinal ≤ b.toOrdinal

instance : LE CalDate := ⟨CalDate.le⟩
instance : LT CalDate := ⟨fun a b => a.toOrdinal < b.toOrdinal⟩

instance (a b : CalDate) : Decidable (a ≤ b) :=
  inferInstanceAs (Decidable (a.toOrdinal ≤ b.toOrdinal))
instance (a b : CalDate) : Decidable (a < b) :=
  inferInstanceAs (Decidable (a.toOrdinal < b.toOrdinal))

/-- Python `max(a, b)` on dates. -/
def maxDate (a b : CalDate) : CalDate := if b ≤ a then a else b

/-- Python `min(a, b)` on dates. -/
def minDate (a b : CalDate) : CalDate := if a ≤ b then a else b

/-- Python `(d2 - d1).days`. -/
def dateDiff (d2 d1 : CalDate) : Int := (d2.toOrdinal : Int) - d1.toOrdinal

/-- A timestamp (`timezone.now()`): a date plus a time-of-day in seconds.
Comparison is lexicographic, `now.date()` is the `date` component. -/
structure Timestamp where
  date : CalDate
  tod : Nat
  deriving Repr, DecidableEq

def Timestamp.le (a b : Timestamp) : Prop :=
  a.date.toOrdinal < b.date.toOrdinal ∨
    (a.date.toOrdinal = b.date.toOrdinal ∧ a.tod ≤ b.tod)

instance : LE Timestamp := ⟨Timestamp.le⟩
instance (a b : Timestamp) : Decidable (a ≤ b) :=
  decidable_of_iff
    (a.date.toOrdinal < b.date.toOrdinal ∨
      (a.date.toOrdinal = b.date.toOrdinal ∧ a.tod ≤ b.tod)) Iff.rfl

/-- `StaffSubscription` (apps/subscriptions/models.py): per (business, staff)
trial/billing record.  `business` and `staff` are the foreign-key ids;
`staff_name` stands for `staff.full_name`. -/
structure StaffSubscription where
  business : Nat
  staff : Nat
  staff_name : String
  trial_ends_at : Timestamp
  is_billable : Bool
  billable_since : Option CalDate
  deactivated_at : Option CalDate
  is_active : Bool
  deriving Repr, DecidableEq

/-- `StaffSubscription.calculate_active_days` (models.py lines 338-367):
billable days of the staff member inside `[period_start, period_end]`. -/
def StaffSubscription.calculate_active_days
    (s : StaffSubscription) (period_start period_end : CalDate) : Int :=
  -- `if not self.is_billable or not self.billable_since: return 0`
  match s.is_billable, s.billable_since with
  | true, some billable_since =>
    -- `effective_start = max(self.billable_since, period_start)`
    let effective_start := maxDate billable_since period_start
    -- `effective_end = min(self.deactivated_at, period_end)` when set,
    -- else `period_end`
    let effective_end :=
      match s.deactivated_at with
      | some d => minDate d period_end
      | none => period_end
    -- `if effective_start > effective_end: return 0`
    if effective_end < effective_start then 0
    -- `return (effective_end - effective_start).days + 1`
    else dateDiff effective_end effective_start + 1
  | _, _ => 0

section ActiveDaysLemmas

lemma maxDate_toOrdinal (a b : CalDate) :
    (maxDate a b).toOrdinal = max a.toOrdinal b.toOrdinal := by
  unfold maxDate
  split
  · next h =>
    have : b.toOrdinal ≤ a.toOrdinal := h
    omega
  · next h =>
    have : ¬ b.toOrdinal ≤ a.toOrdinal := h
    omega

lemma minDate_toOrdinal (a b : CalDate) :
    (minDate a b).toOrdinal = min a.toOrdinal b.toOrdinal := by
  unfold minDate
  split
  · next h =>
    have : a.toOrdinal ≤ b.toOrdinal := h
    omega
  · next h =>
    have : ¬ a.toOrdinal ≤ b.toOrdinal := h
    omega

end ActiveDaysLemmas

/-! ### Money and rounding

`Decimal` amounts are rationals.  `x.quantize(Decimal("0.01"), ROUND_HALF_UP)`
is `roundHalfUp 100 x`; `x.quantize(Decimal("0.0001"), ROUND_HALF_UP)` is
`roundHalfUp 10000 x` (round half away from zero to a multiple of `1/s`). -/

/-- `Decimal.quantize` with `ROUND_HALF_UP` at scale `s` (round half away
from zero to a multiple of `1/s`). -/
def roundHalfUp (s : ℕ) (x : ℚ) : ℚ :=
  if 0 ≤ x then (⌊x * s + 1/2⌋ : ℚ) / s
  else -((⌊(-x) * s + 1/2⌋ : ℚ) / s)

/-- `CulqiService.amount_to_cents`: `int(amount * 100)` (truncation toward
zero). -/
def amountToCents (x : ℚ) : Int :=
  if 0 ≤ x then ⌊x * 100⌋ else -⌊-x * 100⌋

/-! ### Data model (apps/subscriptions/models.py)

Display-only columns (created/updated timestamps, card brand and holder
fields, Culqi ids) are omitted; every column the billing logic reads or
writes is kept. -/

/-- `Invoice.STATUS_CHOICES`. -/
inductive InvoiceStatus
  | pending | paid | failed | cancelled
  deriving Repr, DecidableEq

/-- `BusinessSubscription.STATUS_CHOICES`. -/
inductive SubStatus
  | trial | active | past_due | suspended | cancelled
  deriving Repr, DecidableEq

/-- `Payment.STATUS_CHOICES`. -/
inductive PaymentStatus
  | pending | succeeded | failed | refunded
  deriving Repr, DecidableEq

/-- `PaymentMethod.METHOD_TYPE_CHOICES`. -/
inductive MethodType
  | card | courtesy
  deriving Repr, DecidableEq

/-- `PricingPlan`. -/
structure PricingPlan where
  name : String
  price_per_staff : ℚ
  trial_days : Nat
  currency : String
  is_active : Bool
  deriving Repr, DecidableEq

/-- `PricingPlan.get_active_plan`: first plan with `is_active=True`. -/
def getActivePlan (plans : List PricingPlan) : Option PricingPlan :=
  plans.find? (fun p => p.is_active)

/-- `BusinessSubscription`. -/
structure BusinessSubscription where
  business : Nat
  status : SubStatus
  trial_ends_at : Option Timestamp
  next_billing_date : Option CalDate
  last_payment_date : Option CalDate
  last_payment_amount : Option ℚ
  has_courtesy_access : Bool
  courtesy_until : Option CalDate
  courtesy_reason : String
  deriving Repr, DecidableEq

/-- `BusinessSubscription.is_courtesy_active` (models.py): courtesy flag on
and `courtesy_until` absent or not yet passed (`date.today()` is passed in
as `today`). -/
def BusinessSubscription.is_courtesy_active
    (sub : BusinessSubscription) (today : CalDate) : Bool :=
  if !sub.has_courtesy_access then false
  else
    match sub.courtesy_until with
    | some cu => decide (today ≤ cu)
    | none => true

/-- `PaymentMethod` (gateway/display card fields omitted). -/
structure PaymentMethod where
  business : Nat
  method_type : MethodType
  is_default : Bool
  is_active : Bool
  deriving Repr, DecidableEq

/-- `InvoiceLineItem`.  The row is kept with its parent invoice; the
`description` keyword passed by the generator is kept as a field. -/
structure InvoiceLineItem where
  staff : Nat
  staff_name : String
  period_start : CalDate
  period_end : CalDate
  days_in_period : Nat
  days_active : Int
  monthly_rate : ℚ
  daily_rate : ℚ
  subtotal : ℚ
  description : String
  deriving Repr, DecidableEq

/-- `Invoice`.  `due_date` is stored as a day ordinal (the sweeps only ever
compare it against `today - grace`).  `payment_attempts` is the counter read
and written by `BillingService.process_invoice_payment` (it is listed in the
admin fieldsets and the serializers).  Line items are carried with the
invoice. -/
structure Invoice where
  business : Nat
  period_start : CalDate
  period_end : CalDate
  staff_count : Nat
  price_per_staff : ℚ
  subtotal : ℚ
  total : ℚ
  currency : String
  status : InvoiceStatus
  paid_at : Option Timestamp
  payment_method_used : Option PaymentMethod
  payment_attempts : Nat
  max_payment_attempts : Nat
  notes : String
  due_date : Int
  line_items : List InvoiceLineItem
  deriving Repr, DecidableEq

/-- `Payment`: one charge attempt against an invoice. -/
structure Payment where
  amount : ℚ
  amount_cents : Int
  status : PaymentStatus
  culqi_charge_id : String
  culqi_response_code : String
  error_message : String
  deriving Repr, DecidableEq

/-! ### Invoice generation (BillingService.generate_monthly_invoice) -/

/-- The billing period computed by `generate_monthly_invoice`: first/last
day of the calendar month immediately before the reference date (the
December-to-January rollover handled as in the source). -/
def billingPeriod (today : CalDate) : CalDate × CalDate :=
  let period_start : CalDate :=
    if today.month = 1 then ⟨today.year - 1, 12, 1⟩
    else ⟨today.year, today.month - 1, 1⟩
  let days_in_period := daysInMonth period_start.year period_start.month
  (period_start, ⟨period_start.year, period_start.month, days_in_period⟩)

/-- The uniqueness guard of `generate_monthly_invoice`: an invoice row for
this exact (business, period_start, period_end). -/
def invoiceMatches (business : Nat) (ps pe : CalDate) (i : Invoice) : Bool :=
  i.business == business && i.period_start == ps && i.period_end == pe

/-- The staff-subscription selection of `generate_monthly_invoice`:
`is_billable=True`, `billable_since <= period_end`, and not deactivated
before `period_start` (an SQL comparison against NULL is false, so a row
with `billable_since` NULL is excluded). -/
def selectBillableStaff (staff_subs : List StaffSubscription)
    (business : Nat) (period_start period_end : CalDate) :
    List StaffSubscription :=
  staff_subs.filter (fun s =>
    s.business == business && s.is_billable &&
    (match s.billable_since with
     | some bs => decide (bs ≤ period_end)
     | none => false) &&
    (match s.deactivated_at with
     | some d => decide (period_start ≤ d)
     | none => true))

/-- One line item of `generate_monthly_invoice` for a qualifying staff
member (the body of the per-staff loop after the `days_active == 0`
skip). -/
def mkLineItem (period_start period_end : CalDate) (days_in_period : Nat)
    (monthly_rate daily_rate : ℚ) (s : StaffSubscription)
    (days_active : Int) : InvoiceLineItem :=
  let line_start := maxDate (s.billable_since.getD period_start) period_start
  let line_end :=
    match s.deactivated_at with
    | some d => minDate d period_end
    | none => period_end
  { staff := s.staff, staff_name := s.staff_name,
    period_start := line_start, period_end := line_end,
    days_in_period := days_in_period, days_active := days_active,
    monthly_rate := monthly_rate, daily_rate := daily_rate,
    subtotal := roundHalfUp 100 (daily_rate * (days_active : ℚ)),
    description := "Suscripción profesional: " ++ s.staff_name }

/-- The accumulator step of the per-staff loop: skip staff with zero active
days, otherwise append the line item and add its subtotal to the running
total and one to the staff count. -/
def lineItemStep (period_start period_end : CalDate) (days_in_period : Nat)
    (monthly_rate daily_rate : ℚ)
    (acc : List InvoiceLineItem × ℚ × Nat) (s : StaffSubscription) :
    List InvoiceLineItem × ℚ × Nat :=
  let days_active := s.calculate_active_days period_start period_end
  if days_active = 0 then acc
  else
    let li := mkLineItem period_start period_end days_in_period
      monthly_rate daily_rate s days_active
    (acc.1 ++ [li], acc.2.1 + li.subtotal, acc.2.2 + 1)

/-- The daily rate used by `generate_monthly_invoice`:
`(monthly_rate / Decimal(days_in_period)).quantize(Decimal("0.0001"),
ROUND_HALF_UP)`. -/
def genDailyRate (monthly_rate : ℚ) (days_in_period : Nat) : ℚ :=
  roundHalfUp 10000 (monthly_rate / (days_in_period : ℚ))

/-- The accumulated (line items, total_amount, staff_count) of the per-staff
loop of `generate_monthly_invoice`. -/
def genAcc (plan : PricingPlan) (staff_subs : List StaffSubscription)
    (business : Nat) (today : CalDate) : List InvoiceLineItem × ℚ × Nat :=
  let period_start := (billingPeriod today).1
  let period_end := (billingPeriod today).2
  let days_in_period := daysInMonth period_start.year period_start.month
  (selectBillableStaff staff_subs business period_start period_end).foldl
    (lineItemStep period_start period_end days_in_period
      plan.price_per_staff (genDailyRate plan.price_per_staff days_in_period))
    ([], 0, 0)

/-- The invoice persisted by a successful `generate_monthly_invoice` run,
after its totals are filled in (`staff_count`, `subtotal`, `total`;
`due_date = today + timedelta(days=7)`; `max_payment_attempts` defaults
to 3). -/
def genInvoice (plan : PricingPlan) (staff_subs : List StaffSubscription)
    (business : Nat) (today : CalDate) : Invoice :=
  let acc := genAcc plan staff_subs business today
  { business := business, period_start := (billingPeriod today).1,
    period_end := (billingPeriod today).2, staff_count := acc.2.2,
    price_per_staff := plan.price_per_staff, subtotal := acc.2.1,
    total := acc.2.1, currency := plan.currency,
    status := .pending, paid_at := none,
    payment_method_used := none, payment_attempts := 0,
    max_payment_attempts := 3, notes := "",
    due_date := (today.toOrdinal : Int) + 7,
    line_items := acc.1 }

/-- `BillingService.generate_monthly_invoice` (billing_service.py lines
168-302).  Input: the plan table, the staff-subscription table, the invoice
table, the business id and the reference date; output: the invoice created
(or `none`) and the updated invoice table.  The early returns of the source
are the `(none, invoices)` branches; the transactional create-then-delete
of the zero-line-item shell is the `staff_count = 0` branch returning the
unchanged table. -/
def generate_monthly_invoice (plans : List PricingPlan)
    (staff_subs : List StaffSubscription) (invoices : List Invoice)
    (business : Nat) (today : CalDate) : Option Invoice × List Invoice :=
  match getActivePlan plans with
  | none => (none, invoices)
  | some plan =>
    if invoices.any (invoiceMatches business (billingPeriod today).1
        (billingPeriod today).2) then
      (none, invoices)
    else if (selectBillableStaff staff_subs business (billingPeriod today).1
        (billingPeriod today).2).isEmpty then
      (none, invoices)
    else if (genAcc plan staff_subs business today).2.2 = 0 then
      (none, invoices)
    else
      (some (genInvoice plan staff_subs business today),
       invoices ++ [genInvoice plan staff_subs business today])

/-- `BusinessSubscription.billable_staff_count`: staff subscriptions of the
business with `is_billable=True` and `is_active=True`. -/
def billable_staff_count (staff_subs : List StaffSubscription)
    (business : Nat) : Nat :=
  (staff_subs.filter (fun s =>
    s.business == business && s.is_billable && s.is_active)).length

/-- `SubscriptionService.generate_monthly_invoices`
(subscription_service.py lines 119-176): for every business subscription in
status active or past_due with a positive billable staff count, create an
invoice with `subtotal = price_per_staff * billable_count` and NO line
items, and advance `next_billing_date` to the first day of the month after
the reference date.  Returns the created invoices and the updated
business-subscription rows. -/
def svc_generate_monthly_invoices (plans : List PricingPlan)
    (staff_subs : List StaffSubscription)
    (business_subs : List BusinessSubscription) (today : CalDate) :
    List Invoice × List BusinessSubscription :=
  match getActivePlan plans with
  | none => ([], business_subs)
  | some plan =>
    let period_start := (billingPeriod today).1
    let period_end := (billingPeriod today).2
    let qualifies := fun (bs : BusinessSubscription) =>
      (bs.status == SubStatus.active || bs.status == SubStatus.past_due) &&
      billable_staff_count staff_subs bs.business != 0
    let invoices := (business_subs.filter qualifies).map (fun bs =>
      let billable_count := billable_staff_count staff_subs bs.business
      let subtotal := plan.price_per_staff * (billable_count : ℚ)
      { business := bs.business, period_start := period_start,
        period_end := period_end, staff_count := billable_count,
        price_per_staff := plan.price_per_staff, subtotal := subtotal,
        total := subtotal, currency := plan.currency,
        status := .pending, paid_at := none, payment_method_used := none,
        payment_attempts := 0, max_payment_attempts := 3, notes := "",
        due_date := (today.toOrdinal : Int) + 7, line_items := [] })
    let next : CalDate :=
      if today.month + 1 > 12 then ⟨today.year + 1, 1, 1⟩
      else ⟨today.year, today.month + 1, 1⟩
    let business_subs' := business_subs.map (fun bs =>
      if qualifies bs then { bs with next_billing_date := some next } else bs)
    (invoices, business_subs')

section GenerationLemmas

/-- The per-staff loop leaves the accumulator untouched on staff with zero
active days. -/
lemma foldl_lineItemStep_zero (ps pe : CalDate) (dip : Nat) (mr dr : ℚ)
    (l : List StaffSubscription) (acc : List InvoiceLineItem × ℚ × Nat)
    (h : ∀ s ∈ l, s.calculate_active_days ps pe = 0) :
    l.foldl (lineItemStep ps pe dip mr dr) acc = acc := by
  induction l generalizing acc with
  | nil => rfl
  | cons s t ih =>
    have hs : s.calculate_active_days ps pe = 0 := h s (by simp)
    have hstep : lineItemStep ps pe dip mr dr acc s = acc := by
      unfold lineItemStep
      simp [hs]
    rw [List.foldl_cons, hstep]
    exact ih acc (fun x hx => h x (by simp [hx]))

/-- The running total of the per-staff loop is the sum of the accumulated
line-item subtotals. -/
lemma foldl_lineItemStep_sum (ps pe : CalDate) (dip : Nat) (mr dr : ℚ)
    (l : List StaffSubscription) (acc : List InvoiceLineItem × ℚ × Nat)
    (h : (acc.1.map (fun li => li.subtotal)).sum = acc.2.1) :
    (((l.foldl (lineItemStep ps pe dip mr dr) acc).1.map
        (fun li => li.subtotal)).sum) =
      (l.foldl (lineItemStep ps pe dip mr dr) acc).2.1 := by
  induction l generalizing acc with
  | nil => exact h
  | cons s t ih =>
    rw [List.foldl_cons]
    apply ih
    by_cases hz : s.calculate_active_days ps pe = 0
    · simpa [lineItemStep, hz] using h
    · simp [lineItemStep, hz, h]

/-- If an invoice for the period already exists, `generate_monthly_invoice`
returns `None` and leaves the invoice table unchanged. -/
lemma generate_existing_none (plans : List PricingPlan)
    (staff_subs : List StaffSubscription) (invoices : List Invoice)
    (b : Nat) (d : CalDate)
    (h : invoices.any
      (invoiceMatches b (billingPeriod d).1 (billingPeriod d).2) = true) :
    generate_monthly_invoice plans staff_subs invoices b d =
      (none, invoices) := by
  unfold generate_monthly_invoice
  cases hp : getActivePlan plans with
  | none => rfl
  | some plan => simp [h]

/-- The line-item subtotals accumulated by `genAcc` sum to its running
total. -/
lemma genAcc_sum (plan : PricingPlan) (staff_subs : List StaffSubscription)
    (b : Nat) (d : CalDate) :
    (((genAcc plan staff_subs b d).1.map (fun li => li.subtotal)).sum) =
      (genAcc plan staff_subs b d).2.1 := by
  unfold genAcc
  exact foldl_lineItemStep_sum _ _ _ _ _ _ _ (by simp)

/-- Shape of a successful generation: the created invoice is `genInvoice`,
the new table is the old one plus that invoice, the created invoice matches
the period of the reference date, and no earlier invoice matched. -/
lemma generate_some_shape (plans : List PricingPlan)
    (staff_subs : List StaffSubscription) (invoices : List Invoice)
    (b : Nat) (d : CalDate) (inv : Invoice)
    (h : (generate_monthly_invoice plans staff_subs invoices b d).1 =
      some inv) :
    (∃ plan, getActivePlan plans = some plan ∧
      inv = genInvoice plan staff_subs b d) ∧
    (generate_monthly_invoice plans staff_subs invoices b d).2 =
        invoices ++ [inv] ∧
      invoiceMatches b (billingPeriod d).1 (billingPeriod d).2 inv = true ∧
      invoices.any
        (invoiceMatches b (billingPeriod d).1 (billingPeriod d).2) = false := by
  cases hp : getActivePlan plans with
  | none =>
    unfold generate_monthly_invoice at h
    rw [hp] at h
    exact absurd h (by simp)
  | some plan =>
    unfold generate_monthly_invoice at h ⊢
    rw [hp] at h ⊢
    by_cases hex : invoices.any
        (invoiceMatches b (billingPeriod d).1 (billingPeriod d).2) = true
    · simp [hex] at h
    · rw [Bool.not_eq_true] at hex
      by_cases hempty : (selectBillableStaff staff_subs b (billingPeriod d).1
          (billingPeriod d).2).isEmpty = true
      · simp [hex, hempty] at h
      · rw [Bool.not_eq_true] at hempty
        by_cases hzero : (genAcc plan staff_subs b d).2.2 = 0
        · simp [hex, hempty, hzero] at h
        · simp only [hex, hempty, hzero, Bool.false_eq_true, if_false,
            Option.some.injEq] at h
          subst h
          refine ⟨⟨plan, rfl, rfl⟩, ?_, ?_, hex⟩
          · simp [hex, hempty, hzero]
          · simp [invoiceMatches, genInvoice]

/-- A generated invoice satisfies the line-item sum invariant: the sum of
its line-item subtotals is its subtotal, which is also its total. -/
lemma genInvoice_sum (plan : PricingPlan)
    (staff_subs : List StaffSubscription) (b : Nat) (d : CalDate) :
    (((genInvoice plan staff_subs b d).line_items.map
        (fun li => li.subtotal)).sum) =
        (genInvoice plan staff_subs b d).subtotal ∧
      (genInvoice plan staff_subs b d).total =
        (genInvoice plan staff_subs b d).subtotal := by
  unfold genInvoice
  exact ⟨genAcc_sum plan staff_subs b d, rfl⟩

/-- When every staff subscription of the business has zero active days in
the billing period, `generate_monthly_invoice` returns `None` and the
invoice table is unchanged. -/
lemma generate_all_zero_none (plans : List PricingPlan)
    (staff_subs : List StaffSubscription) (invoices : List Invoice)
    (b : Nat) (d : CalDate)
    (h : ∀ s ∈ staff_subs, s.business = b →
      s.calculate_active_days (billingPeriod d).1 (billingPeriod d).2 = 0) :
    generate_monthly_invoice plans staff_subs invoices b d =
      (none, invoices) := by
  cases hp : getActivePlan plans with
  | none =>
    unfold generate_monthly_invoice
    rw [hp]
  | some plan =>
    by_cases hex : invoices.any
        (invoiceMatches b (billingPeriod d).1 (billingPeriod d).2) = true
    · exact generate_existing_none plans staff_subs invoices b d hex
    · rw [Bool.not_eq_true] at hex
      have hacc : genAcc plan staff_subs b d = ([], 0, 0) := by
        simp only [genAcc]
        apply foldl_lineItemStep_zero
        intro s hs
        rw [selectBillableStaff, List.mem_filter] at hs
        have hb : s.business = b := by
          have := hs.2
          simp only [Bool.and_eq_true, beq_iff_eq] at this
          exact this.1.1.1
        exact h s hs.1 hb
      unfold generate_monthly_invoice
      rw [hp]
      by_cases hempty : (selectBillableStaff staff_subs b (billingPeriod d).1
          (billingPeriod d).2).isEmpty = true
      · simp [hex, hempty]
      · rw [Bool.not_eq_true] at hempty
        simp [hex, hempty, hacc]

end GenerationLemmas

/-! ### Scheduled sweeps (tasks.py, management commands,
SubscriptionService.check_all_trials) -/

/-- First phase of `BusinessSubscription.check_and_update_status`: a trial
subscription whose trial has elapsed, with billable staff and no recorded
payment, becomes past_due. -/
def pastDueIfTrialExpired (sub : BusinessSubscription) (now : Timestamp)
    (staff_subs : List StaffSubscription) : BusinessSubscription :=
  match sub.status, sub.trial_ends_at with
  | .trial, some te =>
    if te ≤ now ∧ 0 < billable_staff_count staff_subs sub.business ∧
        sub.last_payment_date = none then
      { sub with status := .past_due }
    else sub
  | _, _ => sub

/-- Second phase of `BusinessSubscription.check_and_update_status`: a
past_due subscription more than 7 days past `next_billing_date` is
suspended (no courtesy check here). -/
def suspendIfPastDueOverdue (sub : BusinessSubscription) (now : Timestamp) :
    BusinessSubscription :=
  match sub.status, sub.next_billing_date with
  | .past_due, some nbd =>
    if 7 < dateDiff now.date nbd then { sub with status := .suspended }
    else sub
  | _, _ => sub

/-- `BusinessSubscription.check_and_update_status` (models.py lines
228-245): the two phases in sequence. -/
def BusinessSubscription.check_and_update_status
    (sub : BusinessSubscription) (now : Timestamp)
    (staff_subs : List StaffSubscription) : BusinessSubscription :=
  suspendIfPastDueOverdue (pastDueIfTrialExpired sub now staff_subs) now

/-- The per-row update of the `check_all_trials` staff loop: an active,
not-yet-billable staff subscription whose `trial_ends_at` has passed is
flipped to billable with `billable_since = now.date()`. -/
def expireTrialStep (now : Timestamp) (s : StaffSubscription) :
    StaffSubscription :=
  if !s.is_billable && s.is_active && decide (s.trial_ends_at ≤ now) then
    { s with is_billable := true, billable_since := some now.date }
  else s

/-- `SubscriptionService.check_all_trials` (subscription_service.py lines
95-117), the body of the daily `check_expired_trials` Celery task: flip
every expired active trial row to billable, then run
`check_and_update_status` on every business subscription still in trial. -/
def check_all_trials (now : Timestamp)
    (staff_subs : List StaffSubscription)
    (business_subs : List BusinessSubscription) :
    List StaffSubscription × List BusinessSubscription :=
  (staff_subs.map (expireTrialStep now),
   business_subs.map (fun bs =>
     if bs.status = .trial then
       bs.check_and_update_status now (staff_subs.map (expireTrialStep now))
     else bs))

/-- Businesses with an invoice overdue more than `grace_days` days: the
shared selection of the suspension sweeps
(`status in {pending, failed}` and `due_date < today - grace`). -/
def overdueBusinessIds (today : CalDate) (grace_days : Nat)
    (invoices : List Invoice) : List Nat :=
  (invoices.filter (fun i =>
    (i.status == InvoiceStatus.pending ||
      i.status == InvoiceStatus.failed) &&
    decide (i.due_date < (today.toOrdinal : Int) - grace_days))).map
    (fun i => i.business)

/-- Per-business update of the `suspend_unpaid_subscriptions` Celery task
(tasks.py lines 200-247): suspend unless already suspended or cancelled —
with NO courtesy check. -/
def suspendStepTask (ids : List Nat) (bs : BusinessSubscription) :
    BusinessSubscription :=
  if bs.business ∈ ids ∧ bs.status ≠ .suspended ∧ bs.status ≠ .cancelled
  then { bs with status := .suspended }
  else bs

/-- The `suspend_unpaid_subscriptions` Celery task (grace period fixed at
7 days). -/
def suspend_unpaid_subscriptions (today : CalDate)
    (invoices : List Invoice) (business_subs : List BusinessSubscription) :
    List BusinessSubscription :=
  business_subs.map (suspendStepTask (overdueBusinessIds today 7 invoices))

/-- Per-business update of the `suspend_unpaid` management command
(suspend_unpaid.py lines 62-86): like the task but it also skips any
business whose courtesy access is currently active. -/
def suspendStepCommand (today : CalDate) (ids : List Nat)
    (bs : BusinessSubscription) : BusinessSubscription :=
  if bs.business ∈ ids ∧ bs.status ≠ .suspended ∧ bs.status ≠ .cancelled ∧
      bs.is_courtesy_active today = false
  then { bs with status := .suspended }
  else bs

/-- The `suspend_unpaid` management command with its `--grace-days`
argument (default 7). -/
def suspend_unpaid_command (today : CalDate) (grace_days : Nat)
    (invoices : List Invoice) (business_subs : List BusinessSubscription) :
    List BusinessSubscription :=
  business_subs.map
    (suspendStepCommand today (overdueBusinessIds today grace_days invoices))

/-! ### Payment processing (BillingService.process_invoice_payment)

The Culqi gateway is external: its would-be outcome is an input
(`GatewayResult`), and the result records whether the gateway was actually
contacted (`gateway_called`). -/

/-- Outcome of `CulqiService.process_subscription_payment`: a charge id on
success, or a `CulqiError` with message and code. -/
inductive GatewayResult
  | success (charge_id : String)
  | failure (message : String) (code : String)
  deriving Repr, DecidableEq

/-- The environment of one `process_invoice_payment` call: the payment
method table, the business's subscription row (`business.subscription`),
the current time, and the outcome the gateway would produce if charged. -/
structure PaymentContext where
  payment_methods : List PaymentMethod
  subscription : Option BusinessSubscription
  now : Timestamp
  gateway : GatewayResult

/-- The result of one `process_invoice_payment` call: the returned
(success, Payment) pair plus the updated invoice and subscription rows and
whether the gateway was contacted. -/
structure PaymentResult where
  success : Bool
  payment : Payment
  invoice : Invoice
  subscription : Option BusinessSubscription
  gateway_called : Bool

/-- `BillingService._update_subscription_after_payment`: set the
subscription active, record the payment, and move `next_billing_date` to
the first day of the month after `invoice.period_end` (December rolls over
to January of the next year).  A missing subscription row is left missing
(the source swallows `DoesNotExist`). -/
def update_subscription_after_payment (today : CalDate)
    (sub? : Option BusinessSubscription) (inv : Invoice) :
    Option BusinessSubscription :=
  match sub? with
  | none => none
  | some sub =>
    let next_month := inv.period_end.month + 1
    let next_year := inv.period_end.year
    let ny := if next_month > 12 then next_year + 1 else next_year
    let nm := if next_month > 12 then 1 else next_month
    some
      { sub with
        status := .active
        last_payment_date := some today
        last_payment_amount := some inv.total
        next_billing_date := some ⟨ny, nm, 1⟩ }

/-- `BillingService._handle_payment_failure`: move the subscription to
past_due (if the row exists). -/
def handle_payment_failure (sub? : Option BusinessSubscription) :
    Option BusinessSubscription :=
  sub?.map (fun sub => { sub with status := SubStatus.past_due })

/-- `BillingService._process_courtesy_payment`: no gateway call ever; fail
unless the subscription exists and courtesy is currently active, otherwise
synthesize a succeeded payment with a local reference id, mark the invoice
paid and update the subscription. -/
def process_courtesy_payment (ctx : PaymentContext) (inv : Invoice)
    (pm : PaymentMethod) : PaymentResult :=
  match ctx.subscription with
  | none =>
    { success := false
      payment :=
        { amount := inv.total
          amount_cents := amountToCents inv.total
          status := .failed
          culqi_charge_id := ""
          culqi_response_code := ""
          error_message := "No existe suscripción para este negocio" }
      invoice := inv
      subscription := none
      gateway_called := false }
  | some sub =>
    if !sub.is_courtesy_active ctx.now.date then
      { success := false
        payment :=
          { amount := inv.total
            amount_cents := amountToCents inv.total
            status := .failed
            culqi_charge_id := ""
            culqi_response_code := ""
            error_message := "El acceso cortesía no está activo" }
        invoice := inv
        subscription := some sub
        gateway_called := false }
    else
      { success := true
        payment :=
          { amount := inv.total
            amount_cents := amountToCents inv.total
            status := .succeeded
            culqi_charge_id := "courtesy_ref"
            culqi_response_code := "courtesy"
            error_message := "" }
        invoice :=
          { inv with
            status := .paid
            paid_at := some ctx.now
            payment_method_used := some pm
            notes := inv.notes ++ "\nPagado con cortesía" }
        subscription := update_subscription_after_payment ctx.now.date
          (some sub) inv
        gateway_called := false }

/-- The `invoice.payment_attempts += 1` performed before the gateway charge
(so a crash mid-charge cannot allow unbounded retries). -/
def incrementAttempts (inv : Invoice) : Invoice :=
  { inv with payment_attempts := inv.payment_attempts + 1 }

/-- `BillingService.process_invoice_payment` (billing_service.py lines
306-424).  Resolve the payment method (explicit argument, else the default
active method of the invoice's business); no method → failed payment with
no gateway call; courtesy method → `_process_courtesy_payment`; real card →
refuse when `payment_attempts >= max_payment_attempts` (marking the invoice
failed), else record the attempt, charge the gateway, and update the
invoice and subscription per the outcome. -/
def process_invoice_payment (ctx : PaymentContext) (inv : Invoice)
    (explicit_method : Option PaymentMethod) : PaymentResult :=
  match (match explicit_method with
         | some pm => some pm
         | none => ctx.payment_methods.find? (fun pm =>
             pm.business == inv.business && pm.is_active &&
             pm.is_default)) with
  | none =>
    { success := false
      payment :=
        { amount := inv.total
          amount_cents := amountToCents inv.total
          status := .failed
          culqi_charge_id := ""
          culqi_response_code := ""
          error_message := "No hay método de pago configurado" }
      invoice := inv
      subscription := ctx.subscription
      gateway_called := false }
  | some pm =>
    if pm.method_type = .courtesy then
      process_courtesy_payment ctx inv pm
    else if inv.max_payment_attempts ≤ inv.payment_attempts then
      { success := false
        payment :=
          { amount := inv.total
            amount_cents := amountToCents inv.total
            status := .failed
            culqi_charge_id := ""
            culqi_response_code := ""
            error_message := "Máximo de intentos alcanzado" }
        invoice := { inv with status := .failed }
        subscription := ctx.subscription
        gateway_called := false }
    else
      match ctx.gateway with
      | .success cid =>
        { success := true
          payment :=
            { amount := inv.total
              amount_cents := amountToCents inv.total
              status := .succeeded
              culqi_charge_id := cid
              culqi_response_code := ""
              error_message := "" }
          invoice :=
            { (incrementAttempts inv) with
              status := .paid
              paid_at := some ctx.now
              payment_method_used := some pm }
          subscription := update_subscription_after_payment ctx.now.date
            ctx.subscription inv
          gateway_called := true }
      | .failure msg code =>
        if (incrementAttempts inv).max_payment_attempts ≤ (incrementAttempts inv).payment_attempts then
          { success := false
            payment :=
              { amount := inv.total
                amount_cents := amountToCents inv.total
                status := .failed
                culqi_charge_id := ""
                culqi_response_code := code
                error_message := msg }
            invoice := { (incrementAttempts inv) with status := .failed }
            subscription := handle_payment_failure ctx.subscription
            gateway_called := true }
        else
          { success := false
            payment :=
              { amount := inv.total
                amount_cents := amountToCents inv.total
                status := .failed
                culqi_charge_id := ""
                culqi_response_code := code
                error_message := msg }
            invoice := (incrementAttempts inv)
            subscription := ctx.subscription
            gateway_called := true }

/-- `n` consecutive `process_invoice_payment` calls, threading the invoice
row (used to run a sequence of failed gateway charges). -/
def runFailedAttempts (ctx : PaymentContext)
    (explicit_method : Option PaymentMethod) :
    Nat → Invoice → Invoice
  | 0, inv => inv
  | n + 1, inv =>
    runFailedAttempts ctx explicit_method n
      (process_invoice_payment ctx inv explicit_method).invoice

/-- The first day of the month following `d`, as the spec phrases it
(December-to-January rollover).  Used to compare the code's
`next_billing_date` computation against the spec's wording. -/
def firstOfNextMonth (d : CalDate) : CalDate :=
  if d.month = 12 then ⟨d.year + 1, 1, 1⟩ else ⟨d.year, d.month + 1, 1⟩

section RoundingLemmas

/-- Half-away-from-zero rounding at scale `s` moves a value by at most
`1/(2s)`. -/
lemma roundHalfUp_sub_abs_le (s : ℕ) (hs : 0 < s) (x : ℚ) :
    |roundHalfUp s x - x| ≤ 1 / (2 * (s : ℚ)) := by
  have hs' : (0 : ℚ) < (s : ℚ) := by exact_mod_cast hs
  have key : ∀ y : ℚ, |(⌊y * s + 1/2⌋ : ℚ) / s - y| ≤ 1 / (2 * (s : ℚ)) := by
    intro y
    have h1 : (⌊y * s + 1/2⌋ : ℚ) ≤ y * s + 1/2 := Int.floor_le _
    have h2 : y * s + 1/2 - 1 < (⌊y * s + 1/2⌋ : ℚ) := Int.sub_one_lt_floor _
    have heq : (⌊y * s + 1/2⌋ : ℚ) / s - y =
        ((⌊y * s + 1/2⌋ : ℚ) - y * s) / s := by
      field_simp
      ring
    rw [heq, abs_div, abs_of_pos hs']
    have habs : |(⌊y * s + 1/2⌋ : ℚ) - y * s| ≤ 1/2 :=
      abs_le.mpr ⟨by linarith, by linarith⟩
    calc |(⌊y * s + 1/2⌋ : ℚ) - y * s| / s ≤ (1/2) / s := by gcongr
    _ = 1 / (2 * (s : ℚ)) := by rw [div_div]
  unfold roundHalfUp
  split
  · exact key x
  · have heq : -((⌊(-x) * s + 1/2⌋ : ℚ) / s) - x =
        -((⌊(-x) * s + 1/2⌋ : ℚ) / s - (-x)) := by ring
    rw [heq, abs_neg]
    exact key (-x)

/-- `calendar.monthrange` day counts lie between 28 and 31. -/
lemma daysInMonth_bounds (y m : ℕ) :
    28 ≤ daysInMonth y m ∧ daysInMonth y m ≤ 31 := by
  unfold daysInMonth
  split
  · split <;> omega
  · split <;> omega

/-- Numeric core of the full-month proration property: quantizing the daily
rate at 4 decimals and the subtotal at 2 decimals moves the
`days_in_period`-day subtotal at most 0.01 away from the monthly rate. -/
lemma fullMonth_subtotal_close (m : ℚ) (dim : ℕ)
    (h1 : 28 ≤ dim) (h2 : dim ≤ 31) :
    |roundHalfUp 100 (genDailyRate m dim * (dim : ℚ)) - m| ≤ 1/100 := by
  have hdim : (0 : ℚ) < (dim : ℚ) := by
    have : 0 < dim := by omega
    exact_mod_cast this
  have hd : |genDailyRate m dim - m / (dim : ℚ)| ≤ 1/20000 := by
    have h := roundHalfUp_sub_abs_le 10000 (by norm_num) (m / (dim : ℚ))
    rw [genDailyRate]
    calc |roundHalfUp 10000 (m / (dim : ℚ)) - m / (dim : ℚ)| ≤
        1 / (2 * ((10000 : ℕ) : ℚ)) := h
    _ = 1/20000 := by norm_num
  have hmul : |genDailyRate m dim * (dim : ℚ) - m| ≤ (dim : ℚ) / 20000 := by
    have heq : genDailyRate m dim * (dim : ℚ) - m =
        (genDailyRate m dim - m / (dim : ℚ)) * (dim : ℚ) := by
      field_simp
    rw [heq, abs_mul, abs_of_pos hdim]
    calc |genDailyRate m dim - m / (dim : ℚ)| * (dim : ℚ) ≤
        (1/20000) * (dim : ℚ) := by gcongr
    _ = (dim : ℚ) / 20000 := by ring
  have hs : |roundHalfUp 100 (genDailyRate m dim * (dim : ℚ)) -
      genDailyRate m dim * (dim : ℚ)| ≤ 1/200 := by
    have h := roundHalfUp_sub_abs_le 100 (by norm_num)
      (genDailyRate m dim * (dim : ℚ))
    calc |roundHalfUp 100 (genDailyRate m dim * (dim : ℚ)) -
        genDailyRate m dim * (dim : ℚ)| ≤ 1 / (2 * ((100 : ℕ) : ℚ)) := h
    _ = 1/200 := by norm_num
  have hdimle : (dim : ℚ) ≤ 31 := by exact_mod_cast h2
  calc |roundHalfUp 100 (genDailyRate m dim * (dim : ℚ)) - m| ≤
      |roundHalfUp 100 (genDailyRate m dim * (dim : ℚ)) -
        genDailyRate m dim * (dim : ℚ)| +
      |genDailyRate m dim * (dim : ℚ) - m| := abs_sub_le _ _ _
  _ ≤ 1/200 + (dim : ℚ) / 20000 := add_le_add hs hmul
  _ ≤ 1/200 + 31 / 20000 := by gcongr
  _ ≤ 1/100 := by norm_num

/-- A staff member billable from before the period and not deactivated
before the period end has `calculate_active_days` equal to the inclusive
length of the period. -/
lemma calculate_active_days_full (s : StaffSubscription)
    (ps pe : CalDate) (bs : CalDate)
    (hb : s.is_billable = true) (hbs : s.billable_since = some bs)
    (hle : bs ≤ ps) (hpspe : ps ≤ pe)
    (hdeact : s.deactivated_at = none ∨
      ∃ dd, s.deactivated_at = some dd ∧ pe ≤ dd) :
    s.calculate_active_days ps pe = dateDiff pe ps + 1 := by
  have hbsps : bs.toOrdinal ≤ ps.toOrdinal := hle
  have hpspe' : ps.toOrdinal ≤ pe.toOrdinal := hpspe
  have hmax : (maxDate bs ps).toOrdinal = ps.toOrdinal := by
    rw [maxDate_toOrdinal]; omega
  cases hdeact with
  | inl hnone =>
    simp only [StaffSubscription.calculate_active_days, hb, hbs, hnone]
    have hnotlt : ¬ pe < maxDate bs ps := by
      show ¬ pe.toOrdinal < (maxDate bs ps).toOrdinal
      omega
    simp only [if_neg hnotlt, dateDiff, hmax]
  | inr h =>
    obtain ⟨dd, hdd, hpedd⟩ := h
    have hpedd' : pe.toOrdinal ≤ dd.toOrdinal := hpedd
    have hmin : (minDate dd pe).toOrdinal = pe.toOrdinal := by
      rw [minDate_toOrdinal]; omega
    simp only [StaffSubscription.calculate_active_days, hb, hbs, hdd]
    have hnotlt : ¬ minDate dd pe < maxDate bs ps := by
      show ¬ (minDate dd pe).toOrdinal < (maxDate bs ps).toOrdinal
      omega
    simp only [if_neg hnotlt, dateDiff, hmax, hmin]

/-- Over the full calendar month `[⟨y,mo,1⟩, ⟨y,mo,dim⟩]` the inclusive day
count is `dim`. -/
lemma dateDiff_full_month (y mo dim : ℕ) :
    dateDiff ⟨y, mo, dim⟩ ⟨y, mo, 1⟩ + 1 = (dim : Int) := by
  simp only [dateDiff, CalDate.toOrdinal]
  omega

end RoundingLemmas

section PaymentLemmas

/-- One card payment attempt with a failing gateway and attempts still
available: the invoice's counter goes up by one, and the invoice is marked
failed exactly when the incremented counter exhausts the maximum. -/
lemma process_card_fail_step (ctx : PaymentContext) (inv : Invoice)
    (pm : PaymentMethod) (msg code : String)
    (hcard : pm.method_type = .card)
    (hgw : ctx.gateway = .failure msg code)
    (hlt : inv.payment_attempts < inv.max_payment_attempts) :
    (process_invoice_payment ctx inv (some pm)).invoice.payment_attempts =
        inv.payment_attempts + 1 ∧
      (process_invoice_payment ctx inv
        (some pm)).invoice.max_payment_attempts =
        inv.max_payment_attempts ∧
      (process_invoice_payment ctx inv (some pm)).invoice.status =
        (if inv.max_payment_attempts ≤ inv.payment_attempts + 1 then
          InvoiceStatus.failed
        else inv.status) := by
  have hnc : pm.method_type ≠ MethodType.courtesy := by
    rw [hcard]
    simp
  unfold process_invoice_payment
  simp only [hnc, hgw, not_le.mpr hlt, if_false, ite_false]
  split <;> simp_all [incrementAttempts]
  rw [if_neg (by omega)]

/-- Running `k` failing card attempts that exactly exhaust the maximum
leaves the invoice with `payment_attempts = max_payment_attempts` and
status failed. -/
lemma runFailedAttempts_exhausts (ctx : PaymentContext)
    (pm : PaymentMethod) (msg code : String)
    (hcard : pm.method_type = .card)
    (hgw : ctx.gateway = .failure msg code) :
    ∀ k (inv : Invoice),
      inv.payment_attempts + k = inv.max_payment_attempts →
      inv.status = .pending → 0 < k →
      (runFailedAttempts ctx (some pm) k inv).payment_attempts =
          inv.max_payment_attempts ∧
        (runFailedAttempts ctx (some pm) k inv).max_payment_attempts =
          inv.max_payment_attempts ∧
        (runFailedAttempts ctx (some pm) k inv).status = .failed := by
  intro k
  induction k with
  | zero => intro inv _ _ h0; omega
  | succ k ih =>
    intro inv hsum hpend _
    have hlt : inv.payment_attempts < inv.max_payment_attempts := by omega
    obtain ⟨ha, hm, hs⟩ :=
      process_card_fail_step ctx inv pm msg code hcard hgw hlt
    rw [runFailedAttempts]
    by_cases hk : k = 0
    · subst hk
      have hexh : inv.max_payment_attempts ≤ inv.payment_attempts + 1 := by
        omega
      rw [if_pos hexh] at hs
      rw [runFailedAttempts]
      exact ⟨by rw [ha]; omega, hm, hs⟩
    · have hk' : 0 < k := Nat.pos_of_ne_zero hk
      have hnot : ¬ inv.max_payment_attempts ≤ inv.payment_attempts + 1 := by
        omega
      rw [if_neg hnot] at hs
      have hres := ih ((process_invoice_payment ctx inv (some pm)).invoice)
        (by rw [ha, hm]; omega) (by rw [hs, hpend]) hk'
      rw [hm] at hres
      exact hres

/-- A card payment on an invoice with exhausted attempts is refused: failed
payment, no gateway call, invoice marked failed. -/
lemma process_card_exhausted_refuse (ctx : PaymentContext) (inv : Invoice)
    (pm : PaymentMethod)
    (hcard : pm.method_type = .card)
    (hex : inv.max_payment_attempts ≤ inv.payment_attempts) :
    (process_invoice_payment ctx inv (some pm)).success = false ∧
      (process_invoice_payment ctx inv (some pm)).payment.status =
        .failed ∧
      (process_invoice_payment ctx inv (some pm)).gateway_called = false ∧
      (process_invoice_payment ctx inv (some pm)).invoice.status =
        .failed := by
  unfold process_invoice_payment
  simp [hcard, hex]

/-- The code's `next_billing_date` computation agrees with the spec's
"first day of the month following period_end" on valid months. -/
lemma update_subscription_eq (today : CalDate)
    (sub : BusinessSubscription) (inv : Invoice)
    (hmo : inv.period_end.month ≤ 12) :
    update_subscription_after_payment today (some sub) inv =
      some { sub with
             status := .active
             last_payment_date := some today
             last_payment_amount := some inv.total
             next_billing_date := some (firstOfNextMonth inv.period_end) } := by
  unfold update_subscription_after_payment firstOfNextMonth
  by_cases hm : inv.period_end.month = 12
  · simp [hm]
  · have h1 : ¬ inv.period_end.month + 1 > 12 := by omega
    simp [hm, h1]

/-- Any successful `process_invoice_payment` outcome (courtesy or gateway)
carries the subscription updated by
`_update_subscription_after_payment`. -/
lemma process_success_subscription (ctx : PaymentContext) (inv : Invoice)
    (pm? : Option PaymentMethod)
    (h : (process_invoice_payment ctx inv pm?).success = true) :
    (process_invoice_payment ctx inv pm?).subscription =
      update_subscription_after_payment ctx.now.date ctx.subscription
        inv := by
  unfold process_invoice_payment at h ⊢
  split at h
  · simp at h
  · next pm =>
    split at h
    · next hok =>
      rw [if_pos hok]
      unfold process_courtesy_payment at h ⊢
      split at h
      · simp at h
      · next sub heq =>
        split at h
        · simp at h
        · next hact =>
          rw [heq]
          simp [hact]
    · next hnot =>
      rw [if_neg hnot]
      split at h
      · simp at h
      · next hav =>
        rw [if_neg hav]
        split at h
        · rfl
        · split at h <;> simp at h

end PaymentLemmas

/-! ### Concrete fixtures used by witnesses and counterexamples -/

/-- An active pricing plan at 100.00 per staff-month. -/
def wPlan : PricingPlan :=
  { name := "Plan Estándar", price_per_staff := 100, trial_days := 14,
    currency := "PEN", is_active := true }

/-- A staff member of business 1, billable since 2024-01-10, never
deactivated. -/
def wStaff : StaffSubscription :=
  { business := 1, staff := 1, staff_name := "Ana",
    trial_ends_at := ⟨⟨2024, 1, 1⟩, 0⟩, is_billable := true,
    billable_since := some ⟨2024, 1, 10⟩, deactivated_at := none,
    is_active := true }

/-- Reference date 2024-03-15; its billing period is February 2024. -/
def wDate : CalDate := ⟨2024, 3, 15⟩

/-- A placeholder invoice used only as an `Option.getD` default. -/
def wNullInvoice : Invoice :=
  { business := 0, period_start := ⟨1, 1, 1⟩, period_end := ⟨1, 1, 1⟩,
    staff_count := 0, price_per_staff := 0, subtotal := 0, total := 0,
    currency := "", status := .pending, paid_at := none,
    payment_method_used := none, payment_attempts := 0,
    max_payment_attempts := 3, notes := "", due_date := 0, line_items := [] }

/-- The invoice `generate_monthly_invoice` creates for business 1 from the
fixtures above. -/
def wGenInvoice : Invoice :=
  ((generate_monthly_invoice [wPlan] [wStaff] [] 1 wDate).1).getD wNullInvoice

/-- An active business subscription for business 1 (no courtesy). -/
def wBizSub : BusinessSubscription :=
  { business := 1, status := .active, trial_ends_at := none,
    next_billing_date := none, last_payment_date := none,
    last_payment_amount := none, has_courtesy_access := false,
    courtesy_until := none, courtesy_reason := "" }

/-- A stored real card of business 1, default and active. -/
def wCard : PaymentMethod :=
  { business := 1, method_type := .card, is_default := true,
    is_active := true }

/-- A payment context whose gateway would decline the charge. -/
def wFailCtx : PaymentContext :=
  { payment_methods := [], subscription := some wBizSub,
    now := ⟨⟨2024, 3, 15⟩, 0⟩,
    gateway := .failure "Tarjeta rechazada" "card_declined" }

/-- A payment context whose gateway would accept the charge. -/
def wPayCtx : PaymentContext :=
  { payment_methods := [], subscription := some wBizSub,
    now := ⟨⟨2024, 3, 15⟩, 0⟩, gateway := .success "chr_test" }

/-- The instant 2024-03-15 00:00:00 used as the sweep time. -/
def wNow : Timestamp := ⟨⟨2024, 3, 15⟩, 0⟩

/-- An active staff subscription still in trial, whose trial ended
2024-03-01 (before `wNow`). -/
def wTrialStaff : StaffSubscription :=
  { business := 1, staff := 2, staff_name := "Blanca",
    trial_ends_at := ⟨⟨2024, 3, 1⟩, 0⟩, is_billable := false,
    billable_since := none, deactivated_at := none, is_active := true }

/-- A past_due business subscription with unlimited courtesy access. -/
def wCourtesyBizSub : BusinessSubscription :=
  { business := 1, status := .past_due, trial_ends_at := none,
    next_billing_date := none, last_payment_date := none,
    last_payment_amount := none, has_courtesy_access := true,
    courtesy_until := none, courtesy_reason := "Cliente beta" }

/-- A pending invoice of business 1 overdue far beyond the grace period. -/
def wOverdueInvoice : Invoice :=
  { wNullInvoice with business := 1, due_date := 0 }

end Stylo

/-- C2: `generate_monthly_invoice` is idempotent per (business, billing
period): if an Invoice already exists for the exact
(business, period_start, period_end) it creates nothing and returns `None`;
hence calling it twice with the same reference date creates exactly one
Invoice (the final table holds exactly one invoice for the period) and the
second call returns `None` leaving the table unchanged. -/
theorem C2_generate_monthly_invoice_idempotent
    (plans : List Stylo.PricingPlan)
    (staff_subs : List Stylo.StaffSubscription)
    (invoices : List Stylo.Invoice) (b : Nat) (d : Stylo.CalDate) :
    ((∃ i ∈ invoices, Stylo.invoiceMatches b (Stylo.billingPeriod d).1
        (Stylo.billingPeriod d).2 i = true) →
      Stylo.generate_monthly_invoice plans staff_subs invoices b d =
        (none, invoices)) ∧
    (∀ inv,
      (Stylo.generate_monthly_invoice plans staff_subs invoices b d).1 =
        some inv →
      (Stylo.generate_monthly_invoice plans staff_subs invoices b d).2 =
          invoices ++ [inv] ∧
        (invoices ++ [inv]).countP (Stylo.invoiceMatches b
          (Stylo.billingPeriod d).1 (Stylo.billingPeriod d).2) = 1 ∧
        Stylo.generate_monthly_invoice plans staff_subs
          (invoices ++ [inv]) b d = (none, invoices ++ [inv])) := by
  constructor
  · rintro ⟨i, hi, hm⟩
    apply Stylo.generate_existing_none
    rw [List.any_eq_true]
    exact ⟨i, hi, hm⟩
  · intro inv h
    obtain ⟨-, hsnd, hmatch, hnone⟩ :=
      Stylo.generate_some_shape plans staff_subs invoices b d inv h
    refine ⟨hsnd, ?_, ?_⟩
    · rw [List.countP_append]
      have h0 : invoices.countP (Stylo.invoiceMatches b
          (Stylo.billingPeriod d).1 (Stylo.billingPeriod d).2) = 0 := by
        rw [List.countP_eq_zero]
        intro a ha
        have := List.any_eq_false.mp (by simpa using hnone) a ha
        simpa using this
      rw [h0, List.countP_cons]
      simp [hmatch]
    · apply Stylo.generate_existing_none
      rw [List.any_eq_true]
      exact ⟨inv, by simp, hmatch⟩

/-- Witness for C2 at concrete inputs: generating the February-2024 invoice
for business 1 succeeds, and a second run with the same reference date
returns `None` and leaves the invoice table unchanged. -/
theorem C2_generate_monthly_invoice_idempotent_witness :
    (Stylo.generate_monthly_invoice [Stylo.wPlan] [Stylo.wStaff] [] 1
        Stylo.wDate).1 = some Stylo.wGenInvoice ∧
      Stylo.generate_monthly_invoice [Stylo.wPlan] [Stylo.wStaff]
        ([] ++ [Stylo.wGenInvoice]) 1 Stylo.wDate =
        (none, [] ++ [Stylo.wGenInvoice]) :=
  ⟨rfl,
    ((C2_generate_monthly_invoice_idempotent [Stylo.wPlan] [Stylo.wStaff]
      [] 1 Stylo.wDate).2 Stylo.wGenInvoice rfl).2.2⟩

/-- C4 (amended): every Invoice created and persisted by
`BillingService.generate_monthly_invoice` satisfies the sum invariant: the
sum of its line items' subtotals equals its subtotal (and its total).  The
invariant does NOT hold for every invoice the system can generate:
`SubscriptionService.generate_monthly_invoices` persists invoices with no
line items at all, whose subtotal is `price_per_staff * billable_count`. -/
theorem C4_line_item_sum (plans : List Stylo.PricingPlan)
    (staff_subs : List Stylo.StaffSubscription)
    (invoices : List Stylo.Invoice) (b : Nat) (d : Stylo.CalDate)
    (inv : Stylo.Invoice) (plans2 : List Stylo.PricingPlan)
    (ss2 : List Stylo.StaffSubscription)
    (bs2 : List Stylo.BusinessSubscription) (d2 : Stylo.CalDate) :
    ((Stylo.generate_monthly_invoice plans staff_subs invoices b d).1 =
        some inv →
      (inv.line_items.map (fun li => li.subtotal)).sum = inv.subtotal ∧
        inv.total = inv.subtotal) ∧
    (∀ i ∈ (Stylo.svc_generate_monthly_invoices plans2 ss2 bs2 d2).1,
      i.line_items = []) := by
  constructor
  · intro h
    obtain ⟨⟨plan, hp, hinv⟩, -, -, -⟩ :=
      Stylo.generate_some_shape plans staff_subs invoices b d inv h
    rw [hinv]
    exact Stylo.genInvoice_sum plan staff_subs b d
  · intro i hi
    cases hp : Stylo.getActivePlan plans2 with
    | none =>
      unfold Stylo.svc_generate_monthly_invoices at hi
      rw [hp] at hi
      simp at hi
    | some plan =>
      unfold Stylo.svc_generate_monthly_invoices at hi
      rw [hp] at hi
      simp only [List.mem_map] at hi
      obtain ⟨bs, hbs, hfb⟩ := hi
      rw [← hfb]

/-- Witness for C4 at concrete inputs: the February-2024 invoice generated
by `generate_monthly_invoice` for business 1 satisfies the sum invariant. -/
theorem C4_line_item_sum_witness :
    (Stylo.generate_monthly_invoice [Stylo.wPlan] [Stylo.wStaff] [] 1
        Stylo.wDate).1 = some Stylo.wGenInvoice ∧
      ((Stylo.wGenInvoice.line_items.map (fun li => li.subtotal)).sum =
          Stylo.wGenInvoice.subtotal ∧
        Stylo.wGenInvoice.total = Stylo.wGenInvoice.subtotal) :=
  ⟨rfl,
    (C4_line_item_sum [Stylo.wPlan] [Stylo.wStaff] [] 1 Stylo.wDate
      Stylo.wGenInvoice [] [] [] Stylo.wDate).1 rfl⟩

/-- Counterexample for C4 as frozen: the claim quantifies over every
invoice the system generates and persists, and its sources include
`SubscriptionService.generate_monthly_invoices`; that generator persists an
invoice for business 1 whose line-item subtotal sum (0, no line items) is
not its subtotal (100.00). -/
theorem C4_line_item_sum_counterexample :
    ∃ i ∈ (Stylo.svc_generate_monthly_invoices [Stylo.wPlan] [Stylo.wStaff]
      [Stylo.wBizSub] Stylo.wDate).1,
      (i.line_items.map (fun li => li.subtotal)).sum ≠ i.subtotal := by
  refine ⟨((Stylo.svc_generate_monthly_invoices [Stylo.wPlan] [Stylo.wStaff]
    [Stylo.wBizSub] Stylo.wDate).1).headD Stylo.wNullInvoice,
    List.Mem.head _, ?_⟩
  have h1 : (((Stylo.svc_generate_monthly_invoices [Stylo.wPlan]
      [Stylo.wStaff] [Stylo.wBizSub] Stylo.wDate).1).headD
      Stylo.wNullInvoice).line_items = ([] : List Stylo.InvoiceLineItem) :=
    rfl
  have h2 : (((Stylo.svc_generate_monthly_invoices [Stylo.wPlan]
      [Stylo.wStaff] [Stylo.wBizSub] Stylo.wDate).1).headD
      Stylo.wNullInvoice).subtotal = 100 * ((1 : ℕ) : ℚ) := rfl
  rw [h1, h2]
  norm_num

/-- C5: a staff member billable for the entire calendar month
(`billable_since <= period_start`, no deactivation within the period) gets
a line item with `days_active = days_in_period` and a subtotal within 0.01
of the monthly rate, where the daily rate is the monthly rate divided by
the exact number of days of that month (28 to 31) and quantized HALF_UP at
4 decimals. -/
theorem C5_full_month_proration (y mo dim : Nat)
    (s : Stylo.StaffSubscription) (bs : Stylo.CalDate) (m : ℚ)
    (hdim : dim = Stylo.daysInMonth y mo)
    (hb : s.is_billable = true) (hbs : s.billable_since = some bs)
    (hle : bs ≤ (⟨y, mo, 1⟩ : Stylo.CalDate))
    (hdeact : s.deactivated_at = none ∨
      ∃ dd, s.deactivated_at = some dd ∧
        (⟨y, mo, dim⟩ : Stylo.CalDate) ≤ dd) :
    (Stylo.mkLineItem ⟨y, mo, 1⟩ ⟨y, mo, dim⟩ dim m
        (Stylo.genDailyRate m dim) s
        (s.calculate_active_days ⟨y, mo, 1⟩ ⟨y, mo, dim⟩)).days_active =
      (dim : Int) ∧
    |(Stylo.mkLineItem ⟨y, mo, 1⟩ ⟨y, mo, dim⟩ dim m
        (Stylo.genDailyRate m dim) s
        (s.calculate_active_days ⟨y, mo, 1⟩ ⟨y, mo, dim⟩)).subtotal - m| ≤
      1/100 := by
  have hbounds := Stylo.daysInMonth_bounds y mo
  rw [← hdim] at hbounds
  have hpspe : (⟨y, mo, 1⟩ : Stylo.CalDate) ≤ (⟨y, mo, dim⟩ :
      Stylo.CalDate) := by
    show (Stylo.CalDate.toOrdinal ⟨y, mo, 1⟩) ≤
      Stylo.CalDate.toOrdinal ⟨y, mo, dim⟩
    simp only [Stylo.CalDate.toOrdinal]
    omega
  have hdays : s.calculate_active_days ⟨y, mo, 1⟩ ⟨y, mo, dim⟩ =
      (dim : Int) := by
    rw [Stylo.calculate_active_days_full s _ _ bs hb hbs hle hpspe hdeact,
      Stylo.dateDiff_full_month]
  constructor
  · simpa [Stylo.mkLineItem] using hdays
  · have hsub : (Stylo.mkLineItem ⟨y, mo, 1⟩ ⟨y, mo, dim⟩ dim m
        (Stylo.genDailyRate m dim) s
        (s.calculate_active_days ⟨y, mo, 1⟩ ⟨y, mo, dim⟩)).subtotal =
        Stylo.roundHalfUp 100 (Stylo.genDailyRate m dim * (dim : ℚ)) := by
      simp only [Stylo.mkLineItem, hdays]
      norm_num
    rw [hsub]
    exact Stylo.fullMonth_subtotal_close m dim hbounds.1 hbounds.2

/-- Witness for C5 at concrete inputs: staff billable since 2024-01-10 over
the leap-February 2024 period (29 days, monthly rate 100) gets 29 active
days and a subtotal within 0.01 of 100. -/
theorem C5_full_month_proration_witness :
    (29 = Stylo.daysInMonth 2024 2) ∧
    ((Stylo.mkLineItem ⟨2024, 2, 1⟩ ⟨2024, 2, 29⟩ 29 100
        (Stylo.genDailyRate 100 29) Stylo.wStaff
        (Stylo.wStaff.calculate_active_days ⟨2024, 2, 1⟩
          ⟨2024, 2, 29⟩)).days_active = (29 : Int) ∧
      |(Stylo.mkLineItem ⟨2024, 2, 1⟩ ⟨2024, 2, 29⟩ 29 100
        (Stylo.genDailyRate 100 29) Stylo.wStaff
        (Stylo.wStaff.calculate_active_days ⟨2024, 2, 1⟩
          ⟨2024, 2, 29⟩)).subtotal - 100| ≤ 1/100) :=
  ⟨by decide,
    C5_full_month_proration 2024 2 29 Stylo.wStaff ⟨2024, 1, 10⟩ 100
      (by decide) rfl rfl (by decide) (Or.inl rfl)⟩

/-- C3: for an invoice paid by real card, after `max_payment_attempts`
consecutive failed gateway charges the invoice has
`payment_attempts = max_payment_attempts` and status failed, and any
further `process_invoice_payment` call returns failure with a failed
Payment, marks the invoice failed, and does not contact the gateway. -/
theorem C3_payment_exhaustion (ctx : Stylo.PaymentContext)
    (pm : Stylo.PaymentMethod) (inv : Stylo.Invoice) (msg code : String)
    (hcard : pm.method_type = .card)
    (hgw : ctx.gateway = .failure msg code)
    (hpa : inv.payment_attempts = 0)
    (hst : inv.status = .pending)
    (hmax : 0 < inv.max_payment_attempts) :
    (Stylo.runFailedAttempts ctx (some pm) inv.max_payment_attempts
        inv).status = .failed ∧
      (Stylo.runFailedAttempts ctx (some pm) inv.max_payment_attempts
        inv).payment_attempts = inv.max_payment_attempts ∧
      (Stylo.process_invoice_payment ctx
        (Stylo.runFailedAttempts ctx (some pm) inv.max_payment_attempts inv)
        (some pm)).success = false ∧
      (Stylo.process_invoice_payment ctx
        (Stylo.runFailedAttempts ctx (some pm) inv.max_payment_attempts inv)
        (some pm)).payment.status = .failed ∧
      (Stylo.process_invoice_payment ctx
        (Stylo.runFailedAttempts ctx (some pm) inv.max_payment_attempts inv)
        (some pm)).gateway_called = false ∧
      (Stylo.process_invoice_payment ctx
        (Stylo.runFailedAttempts ctx (some pm) inv.max_payment_attempts inv)
        (some pm)).invoice.status = .failed := by
  obtain ⟨h1, h2, h3⟩ := Stylo.runFailedAttempts_exhausts ctx pm msg code
    hcard hgw inv.max_payment_attempts inv (by omega) hst hmax
  have href := Stylo.process_card_exhausted_refuse ctx
    (Stylo.runFailedAttempts ctx (some pm) inv.max_payment_attempts inv)
    pm hcard (by rw [h1, h2])
  exact ⟨h3, h1, href.1, href.2.1, href.2.2.1, href.2.2.2⟩

/-- Witness for C3 at concrete inputs: three declined charges on a fresh
invoice (max 3 attempts) leave it failed, and a fourth call is refused
without contacting the gateway. -/
theorem C3_payment_exhaustion_witness :
    (0 < Stylo.wNullInvoice.max_payment_attempts) ∧
    ((Stylo.runFailedAttempts Stylo.wFailCtx (some Stylo.wCard)
        Stylo.wNullInvoice.max_payment_attempts
        Stylo.wNullInvoice).status = .failed ∧
      (Stylo.runFailedAttempts Stylo.wFailCtx (some Stylo.wCard)
        Stylo.wNullInvoice.max_payment_attempts
        Stylo.wNullInvoice).payment_attempts =
        Stylo.wNullInvoice.max_payment_attempts ∧
      (Stylo.process_invoice_payment Stylo.wFailCtx
        (Stylo.runFailedAttempts Stylo.wFailCtx (some Stylo.wCard)
          Stylo.wNullInvoice.max_payment_attempts Stylo.wNullInvoice)
        (some Stylo.wCard)).success = false ∧
      (Stylo.process_invoice_payment Stylo.wFailCtx
        (Stylo.runFailedAttempts Stylo.wFailCtx (some Stylo.wCard)
          Stylo.wNullInvoice.max_payment_attempts Stylo.wNullInvoice)
        (some Stylo.wCard)).payment.status = .failed ∧
      (Stylo.process_invoice_payment Stylo.wFailCtx
        (Stylo.runFailedAttempts Stylo.wFailCtx (some Stylo.wCard)
          Stylo.wNullInvoice.max_payment_attempts Stylo.wNullInvoice)
        (some Stylo.wCard)).gateway_called = false ∧
      (Stylo.process_invoice_payment Stylo.wFailCtx
        (Stylo.runFailedAttempts Stylo.wFailCtx (some Stylo.wCard)
          Stylo.wNullInvoice.max_payment_attempts Stylo.wNullInvoice)
        (some Stylo.wCard)).invoice.status = .failed) :=
  ⟨by decide,
    C3_payment_exhaustion Stylo.wFailCtx Stylo.wCard Stylo.wNullInvoice
      "Tarjeta rechazada" "card_declined" rfl rfl rfl rfl (by decide)⟩

/-- C8: for every invoice and every starting subscription status (including
suspended), a successful `process_invoice_payment` sets the subscription
status to active, records `last_payment_date` (today) and
`last_payment_amount` (the invoice total), and sets `next_billing_date` to
the first day of the month following the invoice's `period_end`, with the
December-to-January rollover; no separate unsuspend action is involved. -/
theorem C8_payment_activates_subscription (ctx : Stylo.PaymentContext)
    (inv : Stylo.Invoice) (pm? : Option Stylo.PaymentMethod)
    (sub : Stylo.BusinessSubscription)
    (hsub : ctx.subscription = some sub)
    (hmo : inv.period_end.month ≤ 12)
    (hsucc : (Stylo.process_invoice_payment ctx inv pm?).success = true) :
    (Stylo.process_invoice_payment ctx inv pm?).subscription =
      some { sub with
             status := .active
             last_payment_date := some ctx.now.date
             last_payment_amount := some inv.total
             next_billing_date :=
               some (Stylo.firstOfNextMonth inv.period_end) } := by
  rw [Stylo.process_success_subscription ctx inv pm? hsucc, hsub]
  exact Stylo.update_subscription_eq ctx.now.date sub inv hmo

/-- Witness for C8 at concrete inputs: a successful card charge on the
February-2024 invoice reactivates the subscription and moves
`next_billing_date` to 2024-03-01. -/
theorem C8_payment_activates_subscription_witness :
    (Stylo.wPayCtx.subscription = some Stylo.wBizSub) ∧
    (Stylo.wGenInvoice.period_end.month ≤ 12) ∧
    ((Stylo.process_invoice_payment Stylo.wPayCtx Stylo.wGenInvoice
        (some Stylo.wCard)).success = true) ∧
    ((Stylo.process_invoice_payment Stylo.wPayCtx Stylo.wGenInvoice
        (some Stylo.wCard)).subscription =
      some { Stylo.wBizSub with
             status := .active
             last_payment_date := some Stylo.wPayCtx.now.date
             last_payment_amount := some Stylo.wGenInvoice.total
             next_billing_date :=
               some (Stylo.firstOfNextMonth Stylo.wGenInvoice.period_end) }) :=
  ⟨rfl, by decide, rfl,
    C8_payment_activates_subscription Stylo.wPayCtx Stylo.wGenInvoice
      (some Stylo.wCard) Stylo.wBizSub rfl (by decide) rfl⟩

/-- C9: a business whose staff subscriptions all have zero billable days in
the billing period gets no Invoice row: `generate_monthly_invoice` returns
`None` and the invoice table is unchanged (both when the selection is empty
and when the selected staff all yield zero active days, in which case the
created shell is deleted). -/
theorem C9_zero_usage_guard (plans : List Stylo.PricingPlan)
    (staff_subs : List Stylo.StaffSubscription)
    (invoices : List Stylo.Invoice) (b : Nat) (d : Stylo.CalDate)
    (h : ∀ s ∈ staff_subs, s.business = b →
      s.calculate_active_days (Stylo.billingPeriod d).1
        (Stylo.billingPeriod d).2 = 0) :
    Stylo.generate_monthly_invoice plans staff_subs invoices b d =
      (none, invoices) :=
  Stylo.generate_all_zero_none plans staff_subs invoices b d h

/-- Witness for C9 at concrete inputs: a staff member deactivated on
2024-01-20, before the February-2024 period, produces no invoice. -/
theorem C9_zero_usage_guard_witness :
    (∀ s ∈ [{ Stylo.wStaff with deactivated_at := some ⟨2024, 1, 20⟩ }],
      Stylo.StaffSubscription.business s = 1 →
      s.calculate_active_days (Stylo.billingPeriod Stylo.wDate).1
        (Stylo.billingPeriod Stylo.wDate).2 = 0) ∧
    Stylo.generate_monthly_invoice [Stylo.wPlan]
      [{ Stylo.wStaff with deactivated_at := some ⟨2024, 1, 20⟩ }] [] 1
      Stylo.wDate = (none, []) :=
  ⟨by decide,
    C9_zero_usage_guard [Stylo.wPlan]
      [{ Stylo.wStaff with deactivated_at := some ⟨2024, 1, 20⟩ }] [] 1
      Stylo.wDate (by decide)⟩

/-- C1: `calculate_active_days` returns 0 when the subscription is not
billable or has no `billable_since`; otherwise, with
`effective_start = max(billable_since, period_start)` and
`effective_end = min(deactivated_at or period_end, period_end)`, it returns
0 when `effective_start > effective_end` and the inclusive day count
`(effective_end - effective_start).days + 1` otherwise; in particular a
staff member deactivated before `period_start` or activated after
`period_end` contributes 0 days. -/
theorem C1_calculate_active_days_spec
    (s : Stylo.StaffSubscription) (ps pe : Stylo.CalDate) :
    ((s.is_billable = false ∨ s.billable_since = none) →
      s.calculate_active_days ps pe = 0) ∧
    (∀ bs, s.is_billable = true → s.billable_since = some bs →
      (∀ es ee, es = Stylo.maxDate bs ps →
        ee = (match s.deactivated_at with
              | some d => Stylo.minDate d pe
              | none => pe) →
        s.calculate_active_days ps pe =
          (if ee < es then 0 else Stylo.dateDiff ee es + 1))) ∧
    (∀ d, s.deactivated_at = some d → d < ps →
      s.calculate_active_days ps pe = 0) ∧
    (∀ bs, s.billable_since = some bs → pe < bs →
      s.calculate_active_days ps pe = 0) := by
  refine ⟨?_, ?_, ?_, ?_⟩
  · rintro (h | h) <;>
      simp [Stylo.StaffSubscription.calculate_active_days, h]
  · intro bs hb hbs es ee hes hee
    subst hes hee
    simp [Stylo.StaffSubscription.calculate_active_days, hb, hbs]
  · intro d hd hdps
    cases hib : s.is_billable
    · simp [Stylo.StaffSubscription.calculate_active_days, hib]
    · cases hbs : s.billable_since with
      | none => simp [Stylo.StaffSubscription.calculate_active_days, hib, hbs]
      | some bs =>
        simp only [Stylo.StaffSubscription.calculate_active_days, hib, hbs, hd]
        have hlt : d.toOrdinal < ps.toOrdinal := hdps
        have h1 : (Stylo.minDate d pe).toOrdinal ≤ d.toOrdinal := by
          rw [Stylo.minDate_toOrdinal]; omega
        have h2 : ps.toOrdinal ≤ (Stylo.maxDate bs ps).toOrdinal := by
          rw [Stylo.maxDate_toOrdinal]; omega
        have hcond : Stylo.minDate d pe < Stylo.maxDate bs ps := by
          show (Stylo.minDate d pe).toOrdinal < (Stylo.maxDate bs ps).toOrdinal
          omega
        simp [hcond]
  · intro bs hbs hpebs
    cases hib : s.is_billable
    · simp [Stylo.StaffSubscription.calculate_active_days, hib]
    · simp only [Stylo.StaffSubscription.calculate_active_days, hib, hbs]
      have hlt : pe.toOrdinal < bs.toOrdinal := hpebs
      have h2 : bs.toOrdinal ≤ (Stylo.maxDate bs ps).toOrdinal := by
        rw [Stylo.maxDate_toOrdinal]; omega
      cases hda : s.deactivated_at with
      | none =>
        have hcond : pe < Stylo.maxDate bs ps := by
          show pe.toOrdinal < (Stylo.maxDate bs ps).toOrdinal
          omega
        simp [hcond]
      | some d =>
        have h1 : (Stylo.minDate d pe).toOrdinal ≤ pe.toOrdinal := by
          rw [Stylo.minDate_toOrdinal]; omega
        have hcond : Stylo.minDate d pe < Stylo.maxDate bs ps := by
          show (Stylo.minDate d pe).toOrdinal < (Stylo.maxDate bs ps).toOrdinal
          omega
        simp [hcond]

/-- Witness for C1 at concrete inputs: a staff member activated on
2024-03-05, after the period 2024-02-01..2024-02-29, contributes 0 days. -/
theorem C1_calculate_active_days_spec_witness :
    Stylo.StaffSubscription.calculate_active_days
      { business := 1, staff := 1, staff_name := "Ana",
        trial_ends_at := ⟨⟨2024, 1, 1⟩, 0⟩, is_billable := true,
        billable_since := some ⟨2024, 3, 5⟩, deactivated_at := none,
        is_active := true }
      ⟨2024, 2, 1⟩ ⟨2024, 2, 29⟩ = 0 :=
  (C1_calculate_active_days_spec
      { business := 1, staff := 1, staff_name := "Ana",
        trial_ends_at := ⟨⟨2024, 1, 1⟩, 0⟩, is_billable := true,
        billable_since := some ⟨2024, 3, 5⟩, deactivated_at := none,
        is_active := true }
      ⟨2024, 2, 1⟩ ⟨2024, 2, 29⟩).2.2.2 ⟨2024, 3, 5⟩ rfl (by decide)

/-- C10: for every `StaffSubscription` (any combination of `is_billable`,
`billable_since` and `deactivated_at`) and every period with
`period_start <= period_end`, `calculate_active_days` returns an integer `n`
with `0 <= n <= (period_end - period_start).days + 1`. -/
theorem C10_calculate_active_days_bounds
    (s : Stylo.StaffSubscription) (ps pe : Stylo.CalDate) (hle : ps ≤ pe) :
    0 ≤ s.calculate_active_days ps pe ∧
      s.calculate_active_days ps pe ≤ Stylo.dateDiff pe ps + 1 := by
  have hpspe : ps.toOrdinal ≤ pe.toOrdinal := hle
  unfold Stylo.StaffSubscription.calculate_active_days
  cases hib : s.is_billable <;> cases hbs : s.billable_since
  · simp [Stylo.dateDiff]; omega
  · simp [Stylo.dateDiff]; omega
  · simp [Stylo.dateDiff]; omega
  · next bs =>
    simp only
    cases hda : s.deactivated_at with
    | none =>
      split
      · constructor
        · exact le_refl 0
        · simp [Stylo.dateDiff]; omega
      · next hnot =>
        have hes : ps.toOrdinal ≤ (Stylo.maxDate bs ps).toOrdinal := by
          rw [Stylo.maxDate_toOrdinal]; omega
        have hnotlt : ¬ pe.toOrdinal < (Stylo.maxDate bs ps).toOrdinal := hnot
        simp only [Stylo.dateDiff]
        omega
    | some d =>
      split
      · constructor
        · exact le_refl 0
        · simp [Stylo.dateDiff]; omega
      · next hnot =>
        have hes : ps.toOrdinal ≤ (Stylo.maxDate bs ps).toOrdinal := by
          rw [Stylo.maxDate_toOrdinal]; omega
        have hee : (Stylo.minDate d pe).toOrdinal ≤ pe.toOrdinal := by
          rw [Stylo.minDate_toOrdinal]; omega
        have hnotlt : ¬ (Stylo.minDate d pe).toOrdinal <
            (Stylo.maxDate bs ps).toOrdinal := hnot
        simp only [Stylo.dateDiff]
        omega

/-- Witness for C10 at concrete inputs: the bounds hold for a staff member
billable 2024-02-10 to 2024-02-20 over the period 2024-02-01..2024-02-29. -/
theorem C10_calculate_active_days_bounds_witness :
    0 ≤ Stylo.StaffSubscription.calculate_active_days
      { business := 2, staff := 7, staff_name := "Berta",
        trial_ends_at := ⟨⟨2024, 1, 1⟩, 0⟩, is_billable := true,
        billable_since := some ⟨2024, 2, 10⟩,
        deactivated_at := some ⟨2024, 2, 20⟩, is_active := true }
      ⟨2024, 2, 1⟩ ⟨2024, 2, 29⟩ ∧
    Stylo.StaffSubscription.calculate_active_days
      { business := 2, staff := 7, staff_name := "Berta",
        trial_ends_at := ⟨⟨2024, 1, 1⟩, 0⟩, is_billable := true,
        billable_since := some ⟨2024, 2, 10⟩,
        deactivated_at := some ⟨2024, 2, 20⟩, is_active := true }
      ⟨2024, 2, 1⟩ ⟨2024, 2, 29⟩ ≤
      Stylo.dateDiff ⟨2024, 2, 29⟩ ⟨2024, 2, 1⟩ + 1 :=
  C10_calculate_active_days_bounds
    { business := 2, staff := 7, staff_name := "Berta",
      trial_ends_at := ⟨⟨2024, 1, 1⟩, 0⟩, is_billable := true,
      billable_since := some ⟨2024, 2, 10⟩,
      deactivated_at := some ⟨2024, 2, 20⟩, is_active := true }
    ⟨2024, 2, 1⟩ ⟨2024, 2, 29⟩ (by decide)

/-- Counterexample for C6 as frozen: an active StaffSubscription with
`is_billable = false` and `trial_ends_at <= now` (trial ended 2024-03-01,
sweep run 2024-03-15) does NOT stay non-billable: the daily sweep
(`check_all_trials`) flips `is_billable` to true and sets `billable_since`
to the sweep date. -/
theorem C6_counterexample :
    (Stylo.wTrialStaff.is_billable = false ∧
      Stylo.wTrialStaff.is_active = true ∧
      Stylo.wTrialStaff.trial_ends_at ≤ Stylo.wNow) ∧
    ((Stylo.check_all_trials Stylo.wNow [Stylo.wTrialStaff] []).1.map
        (fun s => s.is_billable)) = [true] ∧
    ((Stylo.check_all_trials Stylo.wNow [Stylo.wTrialStaff] []).1.map
        (fun s => s.billable_since)) = [some ⟨2024, 3, 15⟩] := by
  decide

/-- C6 (amended): the daily trial sweep DOES set `is_billable` to true by
itself: for every active StaffSubscription row with `is_billable = false`
and `trial_ends_at <= now`, `check_all_trials` replaces the row with one
having `is_billable = true` and `billable_since = now.date()` — no owner
activation and no payment method is involved. -/
theorem C6_trial_sweep_flips_billable (now : Stylo.Timestamp)
    (staff_subs : List Stylo.StaffSubscription)
    (business_subs : List Stylo.BusinessSubscription)
    (s : Stylo.StaffSubscription) (hmem : s ∈ staff_subs)
    (hnb : s.is_billable = false) (hact : s.is_active = true)
    (hexp : s.trial_ends_at ≤ now) :
    { s with is_billable := true, billable_since := some now.date } ∈
      (Stylo.check_all_trials now staff_subs business_subs).1 := by
  have hstep : Stylo.expireTrialStep now s =
      { s with is_billable := true, billable_since := some now.date } := by
    unfold Stylo.expireTrialStep
    simp [hnb, hact, hexp]
  rw [← hstep]
  exact List.mem_map_of_mem _ hmem

/-- Witness for C6 (amended) at concrete inputs: the trial sweep on
2024-03-15 flips the staff member whose trial ended 2024-03-01. -/
theorem C6_trial_sweep_flips_billable_witness :
    (Stylo.wTrialStaff.is_billable = false ∧
      Stylo.wTrialStaff.is_active = true ∧
      Stylo.wTrialStaff.trial_ends_at ≤ Stylo.wNow) ∧
    { Stylo.wTrialStaff with
      is_billable := true
      billable_since := some Stylo.wNow.date } ∈
      (Stylo.check_all_trials Stylo.wNow [Stylo.wTrialStaff] []).1 :=
  ⟨⟨rfl, rfl, by decide⟩,
    C6_trial_sweep_flips_billable Stylo.wNow [Stylo.wTrialStaff] []
      Stylo.wTrialStaff (by decide) rfl rfl (by decide)⟩

/-- Counterexample for C7 as frozen: the daily suspension sweep that is
wired as the Celery task (`suspend_unpaid_subscriptions`) suspends a
business with an invoice overdue beyond the 7-day grace period even though
its courtesy access is currently active. -/
theorem C7_counterexample :
    (Stylo.wCourtesyBizSub.is_courtesy_active ⟨2024, 3, 15⟩ = true) ∧
    ((Stylo.suspend_unpaid_subscriptions ⟨2024, 3, 15⟩
        [Stylo.wOverdueInvoice] [Stylo.wCourtesyBizSub]).map
        (fun bs => bs.status)) = [Stylo.SubStatus.suspended] := by
  decide

/-- C7 (amended): of the two overdue-suspension sweeps, only the
`suspend_unpaid` management command checks courtesy: it leaves every
business with active courtesy unchanged, while the Celery task
`suspend_unpaid_subscriptions` suspends every not-yet-suspended,
not-cancelled business with a qualifying overdue invoice regardless of
courtesy. -/
theorem C7_suspension_courtesy (today : Stylo.CalDate) (grace : Nat)
    (invoices : List Stylo.Invoice)
    (subs : List Stylo.BusinessSubscription)
    (bs : Stylo.BusinessSubscription) (hmem : bs ∈ subs) :
    (bs.is_courtesy_active today = true →
      Stylo.suspendStepCommand today
        (Stylo.overdueBusinessIds today grace invoices) bs = bs ∧
      bs ∈ Stylo.suspend_unpaid_command today grace invoices subs) ∧
    (bs.business ∈ Stylo.overdueBusinessIds today 7 invoices →
      bs.status ≠ .suspended → bs.status ≠ .cancelled →
      (Stylo.suspendStepTask
        (Stylo.overdueBusinessIds today 7 invoices) bs).status =
          .suspended ∧
      Stylo.suspendStepTask (Stylo.overdueBusinessIds today 7 invoices) bs ∈
        Stylo.suspend_unpaid_subscriptions today invoices subs) := by
  constructor
  · intro hcourt
    have hstep : Stylo.suspendStepCommand today
        (Stylo.overdueBusinessIds today grace invoices) bs = bs := by
      unfold Stylo.suspendStepCommand
      rw [if_neg]
      rintro ⟨-, -, -, hfalse⟩
      rw [hcourt] at hfalse
      exact absurd hfalse (by simp)
    refine ⟨hstep, ?_⟩
    have := List.mem_map_of_mem (Stylo.suspendStepCommand today
      (Stylo.overdueBusinessIds today grace invoices)) hmem
    rw [hstep] at this
    exact this
  · intro hov hns hnc
    have hstep : Stylo.suspendStepTask
        (Stylo.overdueBusinessIds today 7 invoices) bs =
        { bs with status := .suspended } := by
      unfold Stylo.suspendStepTask
      rw [if_pos ⟨hov, hns, hnc⟩]
    refine ⟨by rw [hstep], ?_⟩
    exact List.mem_map_of_mem _ hmem

/-- Witness for C7 (amended) at concrete inputs: for the courtesy-active
past_due business with an overdue invoice, the management command leaves
the row unchanged while the Celery task suspends it. -/
theorem C7_suspension_courtesy_witness :
    (Stylo.wCourtesyBizSub.is_courtesy_active ⟨2024, 3, 15⟩ = true) ∧
    (Stylo.suspendStepCommand ⟨2024, 3, 15⟩
        (Stylo.overdueBusinessIds ⟨2024, 3, 15⟩ 7 [Stylo.wOverdueInvoice])
        Stylo.wCourtesyBizSub = Stylo.wCourtesyBizSub ∧
      Stylo.wCourtesyBizSub ∈ Stylo.suspend_unpaid_command ⟨2024, 3, 15⟩ 7
        [Stylo.wOverdueInvoice] [Stylo.wCourtesyBizSub]) ∧
    ((Stylo.suspendStepTask
        (Stylo.overdueBusinessIds ⟨2024, 3, 15⟩ 7 [Stylo.wOverdueInvoice])
        Stylo.wCourtesyBizSub).status = .suspended ∧
      Stylo.suspendStepTask
        (Stylo.overdueBusinessIds ⟨2024, 3, 15⟩ 7 [Stylo.wOverdueInvoice])
        Stylo.wCourtesyBizSub ∈
        Stylo.suspend_unpaid_subscriptions ⟨2024, 3, 15⟩
          [Stylo.wOverdueInvoice] [Stylo.wCourtesyBizSub]) :=
  ⟨by decide,
    (C7_suspension_courtesy ⟨2024, 3, 15⟩ 7 [Stylo.wOverdueInvoice]
      [Stylo.wCourtesyBizSub] Stylo.wCourtesyBizSub (by decide)).1
      (by decide),
    (C7_suspension_courtesy ⟨2024, 3, 15⟩ 7 [Stylo.wOverdueInvoice]
      [Stylo.wCourtesyBizSub] Stylo.wCourtesyBizSub (by decide)).2
      (by decide) (by decide) (by decide)⟩
